import Mathlib

/-!
Verification of the inkpilots-api client library's request/response pipeline.

The repository ships its type declarations (`src/types.ts`), a test suite
(`test/index.ts`) and example scripts; the client implementation itself
(`src/client.ts`, `src/errors.ts`) is not present.  The definitions below are
therefore a shallow embedding modelled from the specification's description of
the pipeline (configuration resolution, request building, transport with
deadline, response classification), with the concrete constants (header names,
error codes, environment variable name, percent-encoding) pinned by the test
suite's assertions.
-/

namespace InkPilots

/-! ## Percent-encoding (model of JavaScript encodeURIComponent) -/

/-- Modelled from the spec: the Request Builder percent-encodes every path
parameter "as a single path segment".  The implementation is absent from the
sources; the tests pin the encoding to JavaScript `encodeURIComponent`
(`"agent/with/slashes@123"` becomes `"agent%2Fwith%2Fslashes%40123"`).
`encodeURIComponent` leaves exactly the unreserved characters
A-Z, a-z, 0-9, hyphen, underscore, dot, bang, tilde, star, apostrophe and
parentheses unescaped; this predicate recognises them by code point. -/
def isUnreservedChar (c : Char) : Bool :=
  let n := c.toNat
  (65 ≤ n && n ≤ 90) || (97 ≤ n && n ≤ 122) || (48 ≤ n && n ≤ 57) ||
  n == 45 || n == 95 || n == 46 || n == 33 || n == 126 || n == 42 ||
  n == 39 || n == 40 || n == 41

/-- Uppercase hexadecimal digit for a value below 16. -/
def hexDigitChar (n : Nat) : Char :=
  if n < 10 then Char.ofNat (48 + n) else Char.ofNat (55 + n)

/-- Percent-encoding of one byte: a percent sign followed by two uppercase
hexadecimal digits. -/
def percentByte (b : Nat) : List Char :=
  ['%', hexDigitChar (b / 16), hexDigitChar (b % 16)]

/-- UTF-8 byte sequence of a code point (as natural numbers below 256). -/
def utf8Bytes (c : Char) : List Nat :=
  if c.toNat < 128 then
    [c.toNat]
  else if c.toNat < 2048 then
    [192 + c.toNat / 64, 128 + c.toNat % 64]
  else if c.toNat < 65536 then
    [224 + c.toNat / 4096, 128 + (c.toNat / 64) % 64, 128 + c.toNat % 64]
  else
    [240 + c.toNat / 262144, 128 + (c.toNat / 4096) % 64,
     128 + (c.toNat / 64) % 64, 128 + c.toNat % 64]

/-- Encoding of one character: kept verbatim when unreserved, otherwise each
UTF-8 byte is percent-encoded. -/
def encodeChar (c : Char) : List Char :=
  if isUnreservedChar c then [c] else ((utf8Bytes c).map percentByte).flatten

/-- Modelled from the spec: percent-encoding of a whole path parameter value
(JavaScript `encodeURIComponent`). -/
def encodeURIComponent (s : String) : String :=
  String.mk ((s.data.map encodeChar).flatten)

/-! ## Query-string serialization -/

/-- The `status` filter of the article-listing operation
(`"draft" | "published" | "archived"` in `src/types.ts`). -/
inductive ArticleStatus where
  | draft
  | published
  | archived
deriving DecidableEq, Repr

/-- Wire form of an `ArticleStatus` value. -/
def statusString : ArticleStatus → String
  | .draft => "draft"
  | .published => "published"
  | .archived => "archived"

/-- Options of `getAgentArticles` (`limit`, `skip`, `status`), each optional. -/
structure GetArticlesOptions where
  limit : Option Nat
  skip : Option Nat
  status : Option ArticleStatus
deriving DecidableEq, Repr

/-- Modelled from the spec: "Query parameters are serialized only when defined
(omit undefined/null options entirely; do not serialize as the literal string
\"undefined\")."  Each defined option contributes one key/value pair; absent
options contribute nothing. -/
def articleQueryParams (o : GetArticlesOptions) : List (String × String) :=
  (match o.limit with
   | some n => [("limit", Nat.repr n)]
   | none => []) ++
  (match o.skip with
   | some n => [("skip", Nat.repr n)]
   | none => []) ++
  (match o.status with
   | some st => [("status", statusString st)]
   | none => [])

/-- Renders key/value pairs as a query string: empty when there are no
parameters, otherwise a question mark followed by ampersand-separated
`key=value` pairs. -/
def renderQuery (ps : List (String × String)) : String :=
  match ps with
  | [] => ""
  | _ => "?" ++ String.intercalate "&" (ps.map (fun p => p.1 ++ "=" ++ p.2))

/-! ## Request building -/

/-- Modelled from the spec: URL of the article-listing operation — base
endpoint, the percent-encoded agent id as a single path segment, and the
serialized query string. -/
def getAgentArticlesUrl (baseUrl agentId : String) (o : GetArticlesOptions) : String :=
  baseUrl ++ "/agents/" ++ encodeURIComponent agentId ++ "/articles" ++
    renderQuery (articleQueryParams o)

/-- Modelled from the spec: URL of the workspace operation — base endpoint and
the percent-encoded workspace id as a single path segment. -/
def getWorkspaceUrl (baseUrl workspaceId : String) : String :=
  baseUrl ++ "/workspaces/" ++ encodeURIComponent workspaceId

/-! ## Error taxonomy -/

/-- Tags of the error taxonomy of spec section 7.  The test suite asserts that
the timeout error is an `instanceof InkPilotsApiError`, so `timeout` is part of
the `InkPilotsApiError` family below. -/
inductive ErrKind where
  | configuration
  | timeout
  | network
  | api
  | quota
deriving DecidableEq, Repr

/-- Modelled from the spec: a thrown error of the client, carrying the tag,
the HTTP status when one was received, the machine-readable `code`, the
human-readable `message`, and the optional `requestId` correlation token. -/
structure ClientError where
  kind : ErrKind
  status : Option Nat
  code : String
  message : String
  requestId : Option String
deriving DecidableEq, Repr

/-- Membership in the `InkPilotsApiError` exception family: the test suite
requires plain API errors, the 402 quota specialization and the timeout error
to all satisfy `instanceof InkPilotsApiError`. -/
def isInkPilotsApiError (e : ClientError) : Bool :=
  e.kind == .api || e.kind == .quota || e.kind == .timeout

/-- The distinct `InkPilotsQuotaExceededError` type raised for status 402. -/
def isQuotaExceededError (e : ClientError) : Bool :=
  e.kind == .quota

/-! ## Configuration resolution -/

/-- Constructor options of `InkPilotsClient` (`apiKey`, `baseUrl`,
`timeoutMs`), all optional. -/
structure ClientOptions where
  apiKey : Option String
  baseUrl : Option String
  timeoutMs : Option Nat

/-- Resolved, immutable client configuration. -/
structure ClientConfig where
  apiKey : String
  baseUrl : String
  timeoutMs : Nat
deriving DecidableEq, Repr

/-- Modelled from the spec: the hardcoded default base endpoint (its exact
value is not observable in the shipped sources). -/
def defaultBaseUrl : String := "https://api.inkpilots.com/v1"

/-- Default deadline: the examples document "60 second timeout (default is 30
seconds)". -/
def defaultTimeoutMs : Nat := 30000

/-- Spec section 6: "the core treats absence/empty string as not configured". -/
def nonEmptyOpt (o : Option String) : Option String :=
  match o with
  | some s => if s.isEmpty then none else some s
  | none => none

/-- Modelled from the spec: credential resolution order — explicit argument,
else the `INKPILOTS_API_KEY` environment value (the variable name is pinned by
the tests); if neither is configured, construction fails synchronously with a
`ConfigurationError`.  The environment is an explicit name-to-value mapping. -/
def resolveConfig (opts : ClientOptions) (env : String → Option String) :
    Except ClientError ClientConfig :=
  match nonEmptyOpt opts.apiKey with
  | some k =>
    .ok { apiKey := k, baseUrl := opts.baseUrl.getD defaultBaseUrl,
          timeoutMs := opts.timeoutMs.getD defaultTimeoutMs }
  | none =>
    match nonEmptyOpt (env "INKPILOTS_API_KEY") with
    | some k =>
      .ok { apiKey := k, baseUrl := opts.baseUrl.getD defaultBaseUrl,
            timeoutMs := opts.timeoutMs.getD defaultTimeoutMs }
    | none =>
      .error { kind := .configuration, status := none, code := "missing_api_key",
               message := "Missing API key", requestId := none }

/-! ## Headers and request descriptors -/

/-- A built request: method, fully-encoded URL and headers. -/
structure RequestDescriptor where
  method : String
  url : String
  headers : List (String × String)

/-- Modelled from the spec: "The authentication header is attached to every
request using the resolved credential, formatted as a bearer-style token under
a fixed header name."  The tests pin the header name `x-api-key` and the
`Bearer ` prefix. -/
def buildHeaders (apiKey : String) : List (String × String) :=
  [("x-api-key", "Bearer " ++ apiKey)]

/-- Builds the request descriptor for a GET operation of the client. -/
def buildRequest (cfg : ClientConfig) (url : String) : RequestDescriptor :=
  { method := "GET", url := url, headers := buildHeaders cfg.apiKey }

/-- The full request built by the article-listing operation. -/
def getAgentArticlesRequest (cfg : ClientConfig) (agentId : String)
    (o : GetArticlesOptions) : RequestDescriptor :=
  buildRequest cfg (getAgentArticlesUrl cfg.baseUrl agentId o)

/-- The full request built by the workspace operation. -/
def getWorkspaceRequest (cfg : ClientConfig) (workspaceId : String) :
    RequestDescriptor :=
  buildRequest cfg (getWorkspaceUrl cfg.baseUrl workspaceId)

/-! ## JSON values and raw responses -/

/-- Parsed JSON values (the classifier treats domain payloads as opaque parsed
JSON; it never decodes them field-by-field). -/
inductive Json where
  | null
  | bool (b : Bool)
  | num (n : Int)
  | str (s : String)
  | arr (elems : List Json)
  | obj (fields : List (String × Json))

/-- Field lookup on a JSON object; `none` on non-objects. -/
def jsonField (j : Json) (k : String) : Option Json :=
  match j with
  | .obj fs => (fs.find? (fun p => p.1 == k)).map Prod.snd
  | _ => none

/-- ASCII lowercasing of one character. -/
def asciiLower (c : Char) : Char :=
  if 65 ≤ c.toNat && c.toNat ≤ 90 then Char.ofNat (c.toNat + 32) else c

/-- ASCII lowercasing of a string. -/
def lowerStr (s : String) : String :=
  String.mk (s.data.map asciiLower)

/-- Case-insensitive header lookup (HTTP header names are case-insensitive). -/
def headerLookup (hs : List (String × String)) (name : String) : Option String :=
  (hs.find? (fun p => lowerStr p.1 == lowerStr name)).map Prod.snd

/-- Does `needle` occur at the start of `hay`? -/
def charsStartWith : List Char → List Char → Bool
  | [], _ => true
  | _ :: _, [] => false
  | a :: as, b :: bs => a == b && charsStartWith as bs

/-- Does `needle` occur contiguously anywhere in `hay`? -/
def charsContain (needle : List Char) : List Char → Bool
  | [] => needle.isEmpty
  | b :: bs => charsStartWith needle (b :: bs) || charsContain needle bs

/-- Substring test on strings. -/
def strContains (hay needle : String) : Bool :=
  charsContain needle.data hay.data

/-- A completed HTTP response as the classifier sees it: status code, status
text, headers, and the outcome of attempting to parse the raw body text as
JSON (`none` when the body was empty or not valid JSON). -/
structure RawResponse where
  status : Nat
  statusText : String
  headers : List (String × String)
  jsonBody : Option Json

/-- Spec section 4.4: "Parse body as JSON when `Content-Type` indicates JSON;
otherwise treat body as absent/empty for error-message purposes." -/
def contentTypeIndicatesJson (hs : List (String × String)) : Bool :=
  match headerLookup hs "content-type" with
  | some v => strContains (lowerStr v) "application/json"
  | none => false

/-- The body the classifier works with: the parsed JSON value when the
`Content-Type` indicates JSON and the body parsed, otherwise absent. -/
def parsedBody (r : RawResponse) : Option Json :=
  if contentTypeIndicatesJson r.headers then r.jsonBody else none

/-- The usable message field of an error body: the non-empty string under the
`message` key of a JSON object body, when there is one. -/
def extractMessage (b : Option Json) : Option String :=
  match b with
  | some j =>
    match jsonField j "message" with
    | some (.str s) => if s.isEmpty then none else some s
    | _ => none
  | none => none

/-- The HTTP status line of a response, used as the fallback error message. -/
def statusLine (r : RawResponse) : String :=
  "HTTP " ++ Nat.repr r.status ++ " " ++ r.statusText

/-- Modelled from the spec: the status-to-`code` table of section 4.4. -/
def classifyStatus (s : Nat) : String :=
  if s = 400 then "bad_request"
  else if s = 401 then "unauthorized"
  else if s = 402 then "access_quota_exceeded"
  else if s = 403 then "forbidden"
  else if s = 404 then "not_found"
  else if s = 429 then "rate_limited"
  else if 500 ≤ s then "server_error"
  else "unknown_error"

/-- The message attached to a thrown error: the body's usable `message` field
when there is one, else the status line ("Error message text falls back to the
HTTP status line when the body carries no usable message field"). -/
def errMessage (r : RawResponse) : String :=
  match extractMessage (parsedBody r) with
  | some m => m
  | none => statusLine r

/-- Modelled from the spec: the Response Classifier.  A 2xx response returns
its parsed JSON body unmodified; any other status raises a member of the
`ApiError` family carrying the status, the table's `code`, the body's message
(falling back to the status line), and the `x-request-id` correlation header
when present, with status 402 raised as the distinct quota-exceeded type.  (A
2xx response whose body is not JSON is a parse failure; the spec leaves that
case open and no claim depends on it.) -/
def classify (r : RawResponse) : Except ClientError Json :=
  if 200 ≤ r.status ∧ r.status ≤ 299 then
    match parsedBody r with
    | some j => .ok j
    | none =>
      .error { kind := .network, status := some r.status, code := "parse_error",
               message := "Failed to parse response body", requestId := none }
  else if r.status = 402 then
    .error { kind := .quota, status := some r.status,
             code := "access_quota_exceeded", message := errMessage r,
             requestId := headerLookup r.headers "x-request-id" }
  else
    .error { kind := .api, status := some r.status,
             code := classifyStatus r.status, message := errMessage r,
             requestId := headerLookup r.headers "x-request-id" }

/-! ## Transport with deadline -/

/-- What the underlying `fetch` call did, as observed at the end of the race
against the deadline timer: it produced a completed response, it threw an
abort error (its cancellation signal fired), or it failed at the network
level. -/
inductive FetchOutcome where
  | success (r : RawResponse)
  | aborted (msg : String)
  | failure (msg : String)

/-- Message of the timeout error; the tests require it to contain
"timed out". -/
def timeoutMessage : String := "Request timed out"

/-- The timeout error raised on deadline expiry or transport abort. -/
def timeoutError : ClientError :=
  { kind := .timeout, status := none, code := "timeout",
    message := timeoutMessage, requestId := none }

/-- Modelled from the spec: the Transport.  When the deadline timer elapsed
before the network call resolved, or when the transport reported its
cancellation signal as aborted, the call fails with the `TimeoutError`; any
other network-level failure surfaces as a distinct `NetworkError`; otherwise
the completed response is passed on. -/
def execute (deadlineElapsed : Bool) (outcome : FetchOutcome) :
    Except ClientError RawResponse :=
  if deadlineElapsed then
    .error timeoutError
  else
    match outcome with
    | .success r => .ok r
    | .aborted _ => .error timeoutError
    | .failure m =>
      .error { kind := .network, status := none, code := "network_error",
               message := m, requestId := none }

/-- The response half of one client operation: transport execution under the
deadline followed by classification. -/
def runRequest (deadlineElapsed : Bool) (outcome : FetchOutcome) :
    Except ClientError Json :=
  match execute deadlineElapsed outcome with
  | .ok r => classify r
  | .error e => .error e

/-! ## Concrete responses, mirroring the mock responses of the test suite -/

/-- The 404 response of the "should throw error on 404 not found" test. -/
def w404 : RawResponse :=
  { status := 404, statusText := "Not Found",
    headers := [("Content-Type", "application/json")],
    jsonBody := some (.obj [("message", .str "Agent not found")]) }

/-- The 402 response of the quota tests, carrying the `x-request-id` header. -/
def w402 : RawResponse :=
  { status := 402, statusText := "Payment Required",
    headers := [("Content-Type", "application/json"),
                ("x-request-id", "req-123")],
    jsonBody := some (.obj [("message", .str "Quota exceeded")]) }

/-- The parsed success body of the end-to-end scenario of spec section 8: one
article and the pagination object `total 1, limit 50, skip 0, hasMore false`. -/
def sampleJson : Json :=
  .obj [("articles", .arr [.obj [("_id", .str "article-1"),
                                 ("title", .str "Test Article")]]),
        ("pagination", .obj [("total", .num 1), ("limit", .num 50),
                             ("skip", .num 0), ("hasMore", .bool false)])]

/-- A completed 200 response whose JSON body is `sampleJson`. -/
def w200 : RawResponse :=
  { status := 200, statusText := "OK",
    headers := [("Content-Type", "application/json")],
    jsonBody := some sampleJson }

/-- A 503 response with no JSON content type and no body. -/
def wNoBody : RawResponse :=
  { status := 503, statusText := "Service Unavailable", headers := [],
    jsonBody := none }

/-! ## Helper lemmas -/

/-- Every Unicode scalar value is below `0x110000`. -/
theorem char_toNat_lt (c : Char) : c.toNat < 1114112 := by
  have h : c.val.toNat < 55296 ∨ 57343 < c.val.toNat ∧ c.val.toNat < 1114112 :=
    c.valid
  rcases h with h | ⟨_, h2⟩
  · exact Nat.lt_trans h (by decide)
  · exact h2

/-- All UTF-8 bytes of a character are below 256. -/
theorem utf8Bytes_lt (c : Char) : ∀ b ∈ utf8Bytes c, b < 256 := by
  have hc := char_toNat_lt c
  intro b hb
  unfold utf8Bytes at hb
  split at hb
  · simp only [List.mem_singleton] at hb
    omega
  · split at hb
    · simp only [List.mem_cons, List.mem_singleton] at hb
      rcases hb with rfl | rfl | h
      · omega
      · omega
      · cases h
    · split at hb
      · simp only [List.mem_cons, List.mem_singleton] at hb
        rcases hb with rfl | rfl | rfl | h
        · omega
        · omega
        · omega
        · cases h
      · simp only [List.mem_cons, List.mem_singleton] at hb
        rcases hb with rfl | rfl | rfl | rfl | h
        · omega
        · omega
        · omega
        · omega
        · cases h

/-- No hexadecimal digit character is a URL delimiter. -/
theorem hexDigitChar_not_delim : ∀ m, m < 16 →
    hexDigitChar m ≠ '/' ∧ hexDigitChar m ≠ '?' ∧ hexDigitChar m ≠ '#' ∧
    hexDigitChar m ≠ '&' ∧ hexDigitChar m ≠ '=' ∧ hexDigitChar m ≠ '@' := by
  decide

/-- No character produced by `encodeChar` is a path-segment or query
delimiter: an unreserved character is none of them, and a percent-escape
consists of a percent sign and hexadecimal digits only. -/
theorem encodeChar_not_delim (c₀ : Char) : ∀ c ∈ encodeChar c₀,
    c ≠ '/' ∧ c ≠ '?' ∧ c ≠ '#' ∧ c ≠ '&' ∧ c ≠ '=' ∧ c ≠ '@' := by
  intro c hc
  unfold encodeChar at hc
  split at hc
  case isTrue hres =>
    simp only [List.mem_singleton] at hc
    subst hc
    refine ⟨?_, ?_, ?_, ?_, ?_, ?_⟩ <;>
      · intro h
        subst h
        simp [isUnreservedChar] at hres
  case isFalse =>
    simp only [List.mem_flatten, List.mem_map] at hc
    obtain ⟨l, ⟨b, hb, rfl⟩, hcl⟩ := hc
    have hb256 : b < 256 := utf8Bytes_lt c₀ b hb
    simp only [percentByte, List.mem_cons, List.mem_singleton] at hcl
    rcases hcl with rfl | rfl | rfl | h
    · exact ⟨by decide, by decide, by decide, by decide, by decide, by decide⟩
    · exact hexDigitChar_not_delim (b / 16) (by omega)
    · exact hexDigitChar_not_delim (b % 16) (by omega)
    · cases h

/-- Every character of `Nat.toDigitsCore` output is a digit character or comes
from the accumulator. -/
theorem toDigitsCore_mem (b : Nat) :
    ∀ (fuel n : Nat) (ds : List Char), ∀ c ∈ Nat.toDigitsCore b fuel n ds,
      c ∈ ds ∨ ∃ k, c = Nat.digitChar k := by
  intro fuel
  induction fuel with
  | zero =>
    intro n ds c hc
    exact Or.inl hc
  | succ fuel ih =>
    intro n ds c hc
    simp only [Nat.toDigitsCore] at hc
    split at hc
    · rcases List.mem_cons.mp hc with rfl | h
      · exact Or.inr ⟨n % b, rfl⟩
      · exact Or.inl h
    · rcases ih (n / b) (Nat.digitChar (n % b) :: ds) c hc with h | h
      · rcases List.mem_cons.mp h with rfl | h
        · exact Or.inr ⟨n % b, rfl⟩
        · exact Or.inl h
      · exact Or.inr h

/-- For arguments of 16 or more, `Nat.digitChar` yields the star fallback. -/
theorem digitChar_of_ge (k : Nat) (h : 16 ≤ k) : Nat.digitChar k = '*' := by
  unfold Nat.digitChar
  repeat rw [if_neg (by omega)]

/-- `Nat.digitChar` never yields the letter `u`. -/
theorem digitChar_ne_u : ∀ k, Nat.digitChar k ≠ 'u' := by
  intro k
  rcases Nat.lt_or_ge k 16 with h | h
  · revert h
    revert k
    decide
  · rw [digitChar_of_ge k h]
    decide

/-- The decimal representation of a natural number is never the string
`"undefined"`. -/
theorem repr_ne_undefined (n : Nat) : Nat.repr n ≠ "undefined" := by
  intro h
  have hu : 'u' ∈ (Nat.repr n).data := by
    rw [h]
    decide
  have hd : (Nat.repr n).data = Nat.toDigitsCore 10 (n + 1) n [] := rfl
  rw [hd] at hu
  rcases toDigitsCore_mem 10 (n + 1) n [] 'u' hu with h' | ⟨k, hk⟩
  · cases h'
  · exact digitChar_ne_u k hk.symm

/-- No wire form of an `ArticleStatus` is the string `"undefined"`. -/
theorem statusString_ne_undefined (st : ArticleStatus) :
    statusString st ≠ "undefined" := by
  cases st <;> decide

/-- Characterization of the serialized query parameters of
`getAgentArticles`. -/
theorem mem_articleQueryParams (o : GetArticlesOptions) (kv : String × String) :
    kv ∈ articleQueryParams o ↔
      (∃ n, o.limit = some n ∧ kv = ("limit", Nat.repr n)) ∨
      (∃ n, o.skip = some n ∧ kv = ("skip", Nat.repr n)) ∨
      (∃ st, o.status = some st ∧ kv = ("status", statusString st)) := by
  rcases o with ⟨l, sk, st⟩
  rcases l with _ | n₁ <;> rcases sk with _ | n₂ <;> rcases st with _ | s₃ <;>
    simp [articleQueryParams]

/-- The status line is never the empty string. -/
theorem statusLine_ne_empty (r : RawResponse) : statusLine r ≠ "" := by
  intro h
  have hd : (statusLine r).data = "".data := congrArg String.data h
  simp [statusLine, String.data_append] at hd

/-- When the body carries no usable message, the error message is the status
line. -/
theorem errMessage_of_none (r : RawResponse)
    (hm : extractMessage (parsedBody r) = none) : errMessage r = statusLine r := by
  unfold errMessage
  rw [hm]

/-! ## Claim theorems -/

/-- C1: every path parameter value is percent-encoded as a single path
segment: no character of the encoded form is a path or query delimiter
(`/ ? # & = @`), the example id `"agent/with/slashes@123"` encodes to
`"agent%2Fwith%2Fslashes%40123"`, and the encoded form occurs contiguously in
the URL built by `getAgentArticles` and by `getWorkspace`. -/
theorem spec_c1_path_encoding :
    (∀ (s : String), ∀ c ∈ (encodeURIComponent s).data,
      c ≠ '/' ∧ c ≠ '?' ∧ c ≠ '#' ∧ c ≠ '&' ∧ c ≠ '=' ∧ c ≠ '@') ∧
    encodeURIComponent "agent/with/slashes@123" = "agent%2Fwith%2Fslashes%40123" ∧
    (∀ (baseUrl agentId : String) (o : GetArticlesOptions),
      (encodeURIComponent agentId).data <:+: (getAgentArticlesUrl baseUrl agentId o).data) ∧
    (∀ (baseUrl workspaceId : String),
      (encodeURIComponent workspaceId).data <:+: (getWorkspaceUrl baseUrl workspaceId).data) := by
  refine ⟨?_, by decide, ?_, ?_⟩
  · intro s c hc
    have hc' : c ∈ (s.data.map encodeChar).flatten := hc
    simp only [List.mem_flatten, List.mem_map] at hc'
    obtain ⟨l, ⟨c₀, _, rfl⟩, hcl⟩ := hc'
    exact encodeChar_not_delim c₀ c hcl
  · intro baseUrl agentId o
    refine ⟨(baseUrl ++ "/agents/").data,
            ("/articles" ++ renderQuery (articleQueryParams o)).data, ?_⟩
    simp [getAgentArticlesUrl, String.data_append, List.append_assoc]
  · intro baseUrl workspaceId
    refine ⟨(baseUrl ++ "/workspaces/").data, ([] : List Char), ?_⟩
    simp [getWorkspaceUrl, String.data_append, List.append_assoc]

/-- Witness for C1 at the concrete inputs of the test suite. -/
theorem spec_c1_witness :
    ('%' ≠ '/' ∧ '%' ≠ '?' ∧ '%' ≠ '#' ∧ '%' ≠ '&' ∧ '%' ≠ '=' ∧ '%' ≠ '@') ∧
    (encodeURIComponent "agent-1").data <:+:
      (getAgentArticlesUrl defaultBaseUrl "agent-1"
        { limit := none, skip := none, status := none }).data :=
  ⟨spec_c1_path_encoding.1 "agent/with/slashes@123" '%' (by decide),
   spec_c1_path_encoding.2.2.1 defaultBaseUrl "agent-1"
     { limit := none, skip := none, status := none }⟩

/-- C2: every response with status 400, 401, 403, 404, 429 or at least 500 is
classified as a thrown error of the `ApiError` family whose `status` equals
the response status and whose `code` is exactly the section 4.4 table entry;
it is never returned as a success value. -/
theorem spec_c2_error_codes (r : RawResponse)
    (h : r.status = 400 ∨ r.status = 401 ∨ r.status = 403 ∨ r.status = 404 ∨
         r.status = 429 ∨ 500 ≤ r.status) :
    ∃ e, classify r = .error e ∧ e.status = some r.status ∧
      e.code = (if r.status = 400 then "bad_request"
                else if r.status = 401 then "unauthorized"
                else if r.status = 403 then "forbidden"
                else if r.status = 404 then "not_found"
                else if r.status = 429 then "rate_limited"
                else "server_error") := by
  have hns : ¬(200 ≤ r.status ∧ r.status ≤ 299) := by omega
  have h402 : ¬(r.status = 402) := by omega
  refine ⟨{ kind := .api, status := some r.status, code := classifyStatus r.status,
            message := errMessage r,
            requestId := headerLookup r.headers "x-request-id" }, ?_, rfl, ?_⟩
  · unfold classify
    rw [if_neg hns, if_neg h402]
  · show classifyStatus r.status = _
    unfold classifyStatus
    split_ifs <;> first | rfl | omega

/-- Witness for C2 at the 404 mock response of the test suite. -/
theorem spec_c2_witness :
    ∃ e, classify w404 = Except.error e ∧ e.status = some 404 ∧
      e.code = "not_found" := by
  obtain ⟨e, h1, h2, h3⟩ := spec_c2_error_codes w404 (by decide)
  exact ⟨e, h1, h2, h3.trans (by decide)⟩

/-- C3: every response with status 402 is classified as the distinct
quota-exceeded error type (distinguishable by kind from the plain API error,
while still a member of the `InkPilotsApiError` family), with `status` 402,
`code` `access_quota_exceeded`, and a `requestId` that equals the value of the
`x-request-id` response header exactly when that header is present. -/
theorem spec_c3_quota (r : RawResponse) (h : r.status = 402) :
    ∃ e, classify r = .error e ∧ isQuotaExceededError e = true ∧
      isInkPilotsApiError e = true ∧ e.kind ≠ ErrKind.api ∧
      e.status = some 402 ∧ e.code = "access_quota_exceeded" ∧
      e.requestId = headerLookup r.headers "x-request-id" := by
  have hns : ¬(200 ≤ r.status ∧ r.status ≤ 299) := by omega
  refine ⟨{ kind := .quota, status := some r.status, code := "access_quota_exceeded",
            message := errMessage r,
            requestId := headerLookup r.headers "x-request-id" }, ?_, ?_⟩
  · unfold classify
    rw [if_neg hns, if_pos h]
  · refine ⟨rfl, rfl, ?_, ?_, rfl, rfl⟩
    · intro hk
      cases hk
    · show some r.status = some 402
      rw [h]

/-- Witness for C3 at the 402 mock response of the test suite, which carries
the `x-request-id` header `req-123`. -/
theorem spec_c3_witness :
    ∃ e, classify w402 = Except.error e ∧ isQuotaExceededError e = true ∧
      isInkPilotsApiError e = true ∧ e.kind ≠ ErrKind.api ∧
      e.status = some 402 ∧ e.code = "access_quota_exceeded" ∧
      e.requestId = some "req-123" := by
  obtain ⟨e, h1, h2, h3, h4, h5, h6, h7⟩ := spec_c3_quota w402 rfl
  exact ⟨e, h1, h2, h3, h4, h5, h6, h7.trans rfl⟩

/-- C4: when the deadline elapses before the network call resolves, or when
the transport reports its cancellation signal as aborted, the operation fails
with the timeout error, whose message indicates the request timed out; it is
never the generic network error and no unclassified abort outcome leaks
through. -/
theorem spec_c4_timeout (dl : Bool) (oc : FetchOutcome)
    (h : dl = true ∨ ∃ m, oc = FetchOutcome.aborted m) :
    ∃ e, runRequest dl oc = .error e ∧ e.kind = ErrKind.timeout ∧
      strContains e.message "timed out" = true ∧ e.kind ≠ ErrKind.network := by
  rcases h with h | ⟨m, rfl⟩
  · subst h
    exact ⟨timeoutError, rfl, rfl, by decide, by decide⟩
  · cases dl
    · exact ⟨timeoutError, rfl, rfl, by decide, by decide⟩
    · exact ⟨timeoutError, rfl, rfl, by decide, by decide⟩

/-- Witness for C4: an aborted transport under an already-elapsed deadline. -/
theorem spec_c4_witness :
    ∃ e, runRequest true (FetchOutcome.aborted "The operation was aborted") =
        Except.error e ∧ e.kind = ErrKind.timeout ∧
      strContains e.message "timed out" = true ∧ e.kind ≠ ErrKind.network :=
  spec_c4_timeout true (FetchOutcome.aborted "The operation was aborted")
    (Or.inl rfl)

/-- C5: an omitted option of the article-listing operation contributes no
query parameter at all (in particular never the literal string "undefined"),
and a given option appears with its literal serialized value. -/
theorem spec_c5_query_params :
    (∀ (o : GetArticlesOptions),
      (o.limit = none → ∀ kv ∈ articleQueryParams o, kv.1 ≠ "limit") ∧
      (o.skip = none → ∀ kv ∈ articleQueryParams o, kv.1 ≠ "skip") ∧
      (o.status = none → ∀ kv ∈ articleQueryParams o, kv.1 ≠ "status") ∧
      (∀ kv ∈ articleQueryParams o, kv.2 ≠ "undefined") ∧
      (∀ n, o.limit = some n → ("limit", Nat.repr n) ∈ articleQueryParams o) ∧
      (∀ n, o.skip = some n → ("skip", Nat.repr n) ∈ articleQueryParams o) ∧
      (∀ st, o.status = some st →
        ("status", statusString st) ∈ articleQueryParams o)) ∧
    renderQuery (articleQueryParams
        { limit := some 25, skip := some 0, status := some .draft }) =
      "?limit=25&skip=0&status=draft" ∧
    renderQuery (articleQueryParams
        { limit := none, skip := none, status := none }) = "" := by
  refine ⟨?_, rfl, rfl⟩
  intro o
  refine ⟨?_, ?_, ?_, ?_, ?_, ?_, ?_⟩
  · intro hl kv hkv
    rw [mem_articleQueryParams] at hkv
    rcases hkv with ⟨n, hn, rfl⟩ | ⟨n, hn, rfl⟩ | ⟨st, hst, rfl⟩
    · rw [hl] at hn
      cases hn
    · show "skip" ≠ "limit"
      decide
    · show "status" ≠ "limit"
      decide
  · intro hs kv hkv
    rw [mem_articleQueryParams] at hkv
    rcases hkv with ⟨n, hn, rfl⟩ | ⟨n, hn, rfl⟩ | ⟨st, hst, rfl⟩
    · show "limit" ≠ "skip"
      decide
    · rw [hs] at hn
      cases hn
    · show "status" ≠ "skip"
      decide
  · intro hst kv hkv
    rw [mem_articleQueryParams] at hkv
    rcases hkv with ⟨n, hn, rfl⟩ | ⟨n, hn, rfl⟩ | ⟨st, hst2, rfl⟩
    · show "limit" ≠ "status"
      decide
    · show "skip" ≠ "status"
      decide
    · rw [hst] at hst2
      cases hst2
  · intro kv hkv
    rw [mem_articleQueryParams] at hkv
    rcases hkv with ⟨n, _, rfl⟩ | ⟨n, _, rfl⟩ | ⟨st, _, rfl⟩
    · exact repr_ne_undefined n
    · exact repr_ne_undefined n
    · exact statusString_ne_undefined st
  · intro n hn
    rw [mem_articleQueryParams]
    exact Or.inl ⟨n, hn, rfl⟩
  · intro n hn
    rw [mem_articleQueryParams]
    exact Or.inr (Or.inl ⟨n, hn, rfl⟩)
  · intro st hst
    rw [mem_articleQueryParams]
    exact Or.inr (Or.inr ⟨st, hst, rfl⟩)

/-- Witness for C5 at the custom options of the test suite. -/
theorem spec_c5_witness :
    ("limit", Nat.repr 25) ∈ articleQueryParams
      { limit := some 25, skip := some 0, status := some ArticleStatus.draft } ∧
    ("status", statusString ArticleStatus.draft) ∈ articleQueryParams
      { limit := some 25, skip := some 0, status := some ArticleStatus.draft } :=
  ⟨(spec_c5_query_params.1
      { limit := some 25, skip := some 0,
        status := some ArticleStatus.draft }).2.2.2.2.1 25 rfl,
   (spec_c5_query_params.1
      { limit := some 25, skip := some 0,
        status := some ArticleStatus.draft }).2.2.2.2.2.2 ArticleStatus.draft rfl⟩

/-- C6: a completed 2xx response whose body parsed as JSON is returned as that
parsed JSON value, unmodified — pagination fields included, with nothing
recomputed, reshaped or dropped. -/
theorem spec_c6_success (r : RawResponse) (j : Json) (h1 : 200 ≤ r.status)
    (h2 : r.status ≤ 299) (hb : parsedBody r = some j) : classify r = .ok j := by
  unfold classify
  rw [if_pos ⟨h1, h2⟩, hb]

/-- Witness for C6 at the end-to-end scenario of spec section 8. -/
theorem spec_c6_witness : classify w200 = Except.ok sampleJson :=
  spec_c6_success w200 sampleJson (by decide) (by decide) rfl

/-- C7: constructing a client with no credential available — neither a
non-empty explicit `apiKey` nor a non-empty `INKPILOTS_API_KEY` environment
value — fails synchronously with the configuration error (the resolver never
touches the transport); and an explicit credential takes precedence,
whatever the environment holds. -/
theorem spec_c7_config :
    (∀ (opts : ClientOptions) (env : String → Option String),
      nonEmptyOpt opts.apiKey = none →
      nonEmptyOpt (env "INKPILOTS_API_KEY") = none →
      ∃ e, resolveConfig opts env = .error e ∧ e.kind = ErrKind.configuration) ∧
    (∀ (opts : ClientOptions) (env : String → Option String) (k : String),
      opts.apiKey = some k → k.isEmpty = false →
      ∃ cfg, resolveConfig opts env = .ok cfg ∧ cfg.apiKey = k) := by
  constructor
  · intro opts env h1 h2
    refine ⟨{ kind := .configuration, status := none, code := "missing_api_key",
              message := "Missing API key", requestId := none }, ?_, rfl⟩
    unfold resolveConfig
    rw [h1, h2]
  · intro opts env k hk hne
    have h1 : nonEmptyOpt opts.apiKey = some k := by
      simp [nonEmptyOpt, hk, hne]
    refine ⟨{ apiKey := k, baseUrl := opts.baseUrl.getD defaultBaseUrl,
              timeoutMs := opts.timeoutMs.getD defaultTimeoutMs }, ?_, rfl⟩
    unfold resolveConfig
    rw [h1]

/-- Witness for C7: no credential at all, and an explicit credential that
wins over an environment credential. -/
theorem spec_c7_witness :
    (∃ e, resolveConfig { apiKey := none, baseUrl := none, timeoutMs := none }
        (fun _ => none) = Except.error e ∧ e.kind = ErrKind.configuration) ∧
    (∃ cfg, resolveConfig
        { apiKey := some "test-api-key-123", baseUrl := none, timeoutMs := none }
        (fun _ => some "env-key") = Except.ok cfg ∧
      cfg.apiKey = "test-api-key-123") :=
  ⟨spec_c7_config.1 { apiKey := none, baseUrl := none, timeoutMs := none }
     (fun _ => none) rfl rfl,
   spec_c7_config.2
     { apiKey := some "test-api-key-123", baseUrl := none, timeoutMs := none }
     (fun _ => some "env-key") "test-api-key-123" rfl rfl⟩

/-- C8: every request built by either operation carries the authentication
header under its fixed name `x-api-key`, valued as the bearer-formatted
resolved credential. -/
theorem spec_c8_auth_header (cfg : ClientConfig) (agentId workspaceId : String)
    (o : GetArticlesOptions) :
    headerLookup (getAgentArticlesRequest cfg agentId o).headers "x-api-key" =
      some ("Bearer " ++ cfg.apiKey) ∧
    headerLookup (getWorkspaceRequest cfg workspaceId).headers "x-api-key" =
      some ("Bearer " ++ cfg.apiKey) :=
  ⟨rfl, rfl⟩

/-- C9: when an error response's body carries no usable message field
(non-JSON and empty bodies included), the thrown error's message is the HTTP
status line — non-empty, with classification succeeding. -/
theorem spec_c9_fallback (r : RawResponse)
    (hns : ¬(200 ≤ r.status ∧ r.status ≤ 299))
    (hm : extractMessage (parsedBody r) = none) :
    ∃ e, classify r = .error e ∧ e.message = statusLine r ∧ e.message ≠ "" := by
  by_cases h4 : r.status = 402
  · refine ⟨{ kind := .quota, status := some r.status,
              code := "access_quota_exceeded", message := errMessage r,
              requestId := headerLookup r.headers "x-request-id" }, ?_, ?_, ?_⟩
    · unfold classify
      rw [if_neg hns, if_pos h4]
    · exact errMessage_of_none r hm
    · show errMessage r ≠ ""
      rw [errMessage_of_none r hm]
      exact statusLine_ne_empty r
  · refine ⟨{ kind := .api, status := some r.status,
              code := classifyStatus r.status, message := errMessage r,
              requestId := headerLookup r.headers "x-request-id" }, ?_, ?_, ?_⟩
    · unfold classify
      rw [if_neg hns, if_neg h4]
    · exact errMessage_of_none r hm
    · show errMessage r ≠ ""
      rw [errMessage_of_none r hm]
      exact statusLine_ne_empty r

/-- Witness for C9 at a 503 response with no content type and no body. -/
theorem spec_c9_witness :
    ∃ e, classify wNoBody = Except.error e ∧ e.message = statusLine wNoBody ∧
      e.message ≠ "" :=
  spec_c9_fallback wNoBody (by decide) rfl

/-- C10: the error produced on deadline expiry or transport abort is itself a
member of the `InkPilotsApiError` family, so catching that family also
catches timeout failures. -/
theorem spec_c10_timeout_in_family (dl : Bool) (oc : FetchOutcome)
    (h : dl = true ∨ ∃ m, oc = FetchOutcome.aborted m) :
    ∃ e, runRequest dl oc = .error e ∧ e.kind = ErrKind.timeout ∧
      isInkPilotsApiError e = true := by
  rcases h with h | ⟨m, rfl⟩
  · subst h
    exact ⟨timeoutError, rfl, rfl, by decide⟩
  · cases dl
    · exact ⟨timeoutError, rfl, rfl, by decide⟩
    · exact ⟨timeoutError, rfl, rfl, by decide⟩

/-- Witness for C10: an aborted transport before the deadline elapsed. -/
theorem spec_c10_witness :
    ∃ e, runRequest false (FetchOutcome.aborted "The operation was aborted") =
        Except.error e ∧ e.kind = ErrKind.timeout ∧
      isInkPilotsApiError e = true :=
  spec_c10_timeout_in_family false
    (FetchOutcome.aborted "The operation was aborted")
    (Or.inr ⟨"The operation was aborted", rfl⟩)

end InkPilots
